import Mathlib

/-
Shallow embedding of the survey wizard in src/src/surveyapp.tsx.

JavaScript values stored in the answer map (`Record<string, any>`) are
modelled by the closed type `Value`: the wizard only ever stores strings,
numbers, arrays of strings, or reads `undefined` for a missing key.
JS numbers are modelled as integers: no operation of the wizard inspects a
stored number beyond a zero test (truthiness), so the fractional part is
irrelevant to every claim.  Arithmetic in `calcProgress` is modelled with
exact integer arithmetic: `Math.round(x)` for `x ≥ 0` is round-half-up,
`round(a / b) = (2 * a + b) / (2 * b)` in natural-number division.
-/

-- --- Types (surveyapp.tsx lines 7-16) ---

inductive QType where
  | text
  | number
  | radio
  | textarea
  | checkbox
deriving DecidableEq, Repr

structure Question where
  id : String
  title : String
  description : Option String
  type : QType
  required : Bool
  options : Option (List String)
deriving DecidableEq, Repr

/-- A runtime JS value as stored in the `answers` record. -/
inductive Value where
  | vStr (s : String)
  | vNum (n : Int)
  | vList (xs : List String)
  | vUndef
  | vNull
deriving DecidableEq, Repr

/-- The `answers` record: a string-keyed JS object, modelled as an
association list in insertion order (JS objects preserve string-key
insertion order). -/
abbrev AnswerStore := List (String × Value)

/-- JS property read `answers[k]`: `undefined` when the key is missing. -/
def getKey : AnswerStore → String → Value
  | [], _ => Value.vUndef
  | (k2, v) :: rest, k => if k2 = k then v else getKey rest k

/-- JS object spread update `\x7b ...s, [k]: v \x7d`: replaces the value in
place when the key exists (keeping insertion order), appends otherwise. -/
def setKey : AnswerStore → String → Value → AnswerStore
  | [], k, v => [(k, v)]
  | (k2, v2) :: rest, k, v =>
      if k2 = k then (k, v) :: rest else (k2, v2) :: setKey rest k v

/-- JS truthiness `Boolean(v)` for the values the wizard stores: a string is
truthy iff nonempty, a number iff nonzero, an array always (even `[]`),
`undefined` and `null` never. -/
def jsTruthy : Value → Bool
  | Value.vStr s => s != ""
  | Value.vNum n => n != 0
  | Value.vList _ => true
  | Value.vUndef => false
  | Value.vNull => false

-- --- The example survey schema (surveyapp.tsx lines 19-57) ---

def demoQuestions : List Question :=
  [ { id := "q_name", title := "What\x27s your full name?",
      description := some "Please type your name as you would like it to appear.",
      type := QType.text, required := true, options := none },
    { id := "q_age", title := "What\x27s your age?", description := none,
      type := QType.number, required := true, options := none },
    { id := "q_activity", title := "Which activities do you do regularly?",
      description := none, type := QType.checkbox, required := false,
      options := some ["Walking", "Running", "Swimming", "Cycling", "Gym"] },
    { id := "q_smoke", title := "Do you smoke?", description := none,
      type := QType.radio, required := true,
      options := some ["No", "Occasionally", "Regularly"] },
    { id := "q_notes", title := "Anything else you want to share?",
      description := some "Optional — e.g., health conditions, preferences.",
      type := QType.textarea, required := false, options := none } ]

-- --- Progress calculation (surveyapp.tsx lines 60-61) ---

/-- Embedding of `calcProgress = (index, total) =>
Math.round(((index + 1) / total) * 100)` with exact rational rounding:
`round(a / b) = ⌊(2 * a + b) / (2 * b)⌋` for nonnegative `a, b`. -/
def calcProgress (index total : Nat) : Nat :=
  (2 * ((index + 1) * 100) + total) / (2 * total)

-- --- Wizard state (surveyapp.tsx lines 206-217) ---

/-- The React state of `SurveyWizard`: `answers`, `index`, `showPreview`
(the phase: `false` = Answering, `true` = Reviewing), `error`
(`validationError`; `none` = JS `null`). -/
structure WizardState where
  answers : AnswerStore
  index : Nat
  showPreview : Bool
  error : Option String
deriving DecidableEq, Repr

/-- Initial `answers` state (lines 206-213): every question id pre-populated,
`[]` for checkbox questions and `''` otherwise. -/
def initAnswers (questions : List Question) : AnswerStore :=
  questions.foldl
    (fun s q =>
      setKey s q.id (if q.type = QType.checkbox then Value.vList [] else Value.vStr ""))
    []

/-- Placeholder for `questions[index]` reads; theorems about navigation carry
an in-range hypothesis, so this default is never what they describe. -/
def defaultQuestion : Question :=
  { id := "", title := "", description := none, type := QType.text,
    required := false, options := none }

-- --- setAnswer (lines 222-224) ---

def setAnswer (st : WizardState) (qid : String) (v : Value) : WizardState :=
  { st with answers := setKey st.answers qid v }

-- --- canProceed (lines 226-233) ---

/-- Drops leading whitespace characters from a character list. -/
def dropLeadingWs : List Char → List Char
  | [] => []
  | c :: cs => if c.isWhitespace then dropLeadingWs cs else c :: cs

/-- Model of JS `String.prototype.trim()`: strips leading and trailing
whitespace.  (Structurally recursive so that concrete instances reduce.) -/
def jsTrim (s : String) : String :=
  String.mk ((dropLeadingWs (dropLeadingWs s.data.reverse).reverse))

/-- Embedding of `canProceed`: `true` when not required; otherwise `false`
for `undefined`/`null`, trimmed-nonempty test for strings, nonempty test for
arrays, and `true` for everything else (in particular any number). -/
def canProceed (qi : Question) (answers : AnswerStore) : Bool :=
  if !qi.required then true
  else
    match getKey answers qi.id with
    | Value.vUndef => false
    | Value.vNull => false
    | Value.vStr s => jsTrim s != ""
    | Value.vList xs => decide (xs.length > 0)
    | Value.vNum _ => true

-- --- handleNext (lines 235-240) ---

/-- Embedding of `handleNext`: `setError(null)`; on validation failure set
the fixed message and change nothing else; otherwise advance, or show the
preview when on the last question. -/
def handleNext (questions : List Question) (st : WizardState) : WizardState :=
  let q := questions.getD st.index defaultQuestion
  if !(canProceed q st.answers) then
    { st with error := some "This question is required." }
  else if st.index < questions.length - 1 then
    { st with error := none, index := st.index + 1 }
  else
    { st with error := none, showPreview := true }

-- --- handlePrev (lines 242-245) ---

def handlePrev (st : WizardState) : WizardState :=
  if st.index > 0 then { st with error := none, index := st.index - 1 }
  else { st with error := none }

-- --- goToQuestion (lines 247-250) ---

/-- Embedding of `goToQuestion`: `setShowPreview(false); setIndex(i)`.
Note the source does not touch `error` here. -/
def goToQuestion (st : WizardState) (i : Nat) : WizardState :=
  { st with showPreview := false, index := i }

-- --- handleSubmit (lines 252-280) ---

/-- The JS short-circuit `s || fallback` on strings: `s` when nonempty. -/
def jsOr (s fallback : String) : String := if s = "" then fallback else s

/-- The predicate of the validation loop in `handleSubmit`:
`qq.required && !canProceed(qq)`. -/
def failPred (answers : AnswerStore) (qq : Question) : Bool :=
  qq.required && !(canProceed qq answers)

/-- Outcome of the `fetch('/api/submit')` call, as observed by the wizard:
`httpOk` is `resp.ok` with a JSON payload; `httpFail` is `!resp.ok`, carrying
the response body's optional `error` field; `netFail` is a thrown exception
(network error, JSON parse error) carrying its `message`. -/
inductive GatewayOutcome where
  | httpOk (payload : String)
  | httpFail (errField : Option String)
  | netFail (msg : String)
deriving DecidableEq, Repr

/-- Embedding of `handleSubmit`.  The returned `Bool` records whether the
gateway (`fetch`) was invoked.  Validation failure branch (lines 254-261):
leave the preview, jump to `questions.indexOf(qq)` for the first failing
`qq`, set the fixed message, return without fetching.  Otherwise
`setError(null)` and fetch; on `!resp.ok` the code throws
`new Error(data.error || 'Submit failed')` and the catch handler runs
`setError(err.message || 'Submission failed')`. -/
def handleSubmit (questions : List Question) (resp : GatewayOutcome)
    (st : WizardState) : WizardState × Bool :=
  match questions.find? (failPred st.answers) with
  | some qq =>
      ({ st with showPreview := false,
                 index := questions.indexOf qq,
                 error := some "Please complete required fields." }, false)
  | none =>
      match resp with
      | GatewayOutcome.httpOk _ => ({ st with error := none }, true)
      | GatewayOutcome.httpFail e =>
          let thrown := match e with
            | some s => jsOr s "Submit failed"
            | none => "Submit failed"
          ({ st with error := some (jsOr thrown "Submission failed") }, true)
      | GatewayOutcome.netFail m =>
          ({ st with error := some (jsOr m "Submission failed") }, true)

-- --- Checkbox toggle (QuestionRenderer, lines 140-168) ---

/-- JS `new Set(list)` materialised back as a list: de-duplicates keeping the
first occurrence of each element, preserving insertion order. -/
def jsSetOfList : List String → List String
  | [] => []
  | a :: l => a :: List.filter (fun b => b != a) (jsSetOfList l)

/-- Embedding of the checkbox `onChange` handler: build
`new Set(Array.isArray(value) ? value : [])`, then `delete` the option when
present (`filter`, preserving order) or `add` it (append), and emit
`Array.from(set)`. -/
def toggleOption (value : Value) (opt : String) : List String :=
  let set := jsSetOfList (match value with | Value.vList xs => xs | _ => [])
  if opt ∈ set then set.filter (fun b => b != opt) else set ++ [opt]

-- --- Preview answered count (lines 394-396) ---

/-- Embedding of `Object.values(answers).filter(Boolean).length` in the
preview header. -/
def answeredCount (answers : AnswerStore) : Nat :=
  ((answers.map Prod.snd).filter jsTruthy).length

-- --- Concrete stores used by witnesses and counterexamples ---

/-- An answer store over `demoQuestions` in which every required question
passes `canProceed`. -/
def filledAnswers : AnswerStore :=
  [ ("q_name", Value.vStr "Alice"),
    ("q_age", Value.vNum 30),
    ("q_activity", Value.vList []),
    ("q_smoke", Value.vStr "No"),
    ("q_notes", Value.vStr "") ]

/-- A concrete required number question used by witnesses. -/
def numQ : Question :=
  { id := "q", title := "", description := none, type := QType.number,
    required := true, options := none }

-- --- Helper lemmas ---

/-- Reading back through a spread update: the updated key yields the new
value, every other key is unchanged. -/
theorem getKey_setKey (l : AnswerStore) (k : String) (v : Value) (k2 : String) :
    getKey (setKey l k v) k2 = if k2 = k then v else getKey l k2 := by
  induction l with
  | nil =>
    rcases eq_or_ne k2 k with h | h
    · subst h; simp [setKey, getKey]
    · simp [setKey, getKey, h, Ne.symm h]
  | cons hd tl ih =>
    obtain ⟨k3, v3⟩ := hd
    rcases eq_or_ne k3 k with h3 | h3
    · subst h3
      rcases eq_or_ne k2 k3 with h | h
      · subst h; simp [setKey, getKey]
      · simp [setKey, getKey, h, Ne.symm h]
    · rcases eq_or_ne k2 k3 with h | h
      · subst h
        simp [setKey, getKey, h3]
      · simp [setKey, getKey, h3, h, Ne.symm h, ih]

-- --- C1 ---

/-- C1 (corrected): for `total ≥ 1` and `index ∈ [0, total)`,
`calcProgress` is monotonically non-decreasing in `index` and equals 100 at
`index = total - 1`; but it equals 100 exactly when
`199 * total ≤ 200 * (index + 1)`, which for `total ≥ 200` also holds at
earlier indices. -/
theorem calcProgress_spec (total index : Nat) (h1 : 1 ≤ total)
    (h2 : index < total) :
    (index + 1 < total → calcProgress index total ≤ calcProgress (index + 1) total)
    ∧ calcProgress (total - 1) total = 100
    ∧ (calcProgress index total = 100 ↔ 199 * total ≤ 200 * (index + 1)) := by
  have hpos : 0 < 2 * total := by omega
  refine ⟨?_, ?_, ?_, ?_⟩
  · intro _
    unfold calcProgress
    exact Nat.div_le_div_right (by omega)
  · unfold calcProgress
    have ht : total - 1 + 1 = total := by omega
    rw [ht]
    exact Nat.div_eq_of_lt_le (by omega) (by omega)
  · intro h
    have h100 : 100 ≤ calcProgress index total := le_of_eq h.symm
    unfold calcProgress at h100
    rw [Nat.le_div_iff_mul_le hpos] at h100
    omega
  · intro h
    unfold calcProgress
    exact Nat.div_eq_of_lt_le (by omega) (by omega)

/-- C1 counterexample: at `total = 200`, `index = 198` (which is in range and
not the last index) the progress is already 100, refuting "equals 100 exactly
when `index = total - 1`". -/
theorem calcProgress_cex :
    calcProgress 198 200 = 100 ∧ (198 : Nat) ≠ 200 - 1 := by decide

/-- Witness for `calcProgress_spec` at `total = 5`, `index = 2`. -/
theorem calcProgress_spec_witness :
    ((1 : Nat) ≤ 5 ∧ (2 : Nat) < 5)
    ∧ ((2 + 1 < 5 → calcProgress 2 5 ≤ calcProgress (2 + 1) 5)
       ∧ calcProgress (5 - 1) 5 = 100
       ∧ (calcProgress 2 5 = 100 ↔ 199 * 5 ≤ 200 * (2 + 1))) :=
  ⟨by decide, calcProgress_spec 5 2 (by decide) (by decide)⟩

-- --- C4 ---

/-- C4 (confirmed): for a required number question whose stored value is the
empty-string sentinel or a number, `canProceed` is `false` only for the
sentinel and `true` for every stored number, including 0 and negatives. -/
theorem canProceed_number_spec (q : Question) (answers : AnswerStore)
    (hreq : q.required = true) (hty : q.type = QType.number) :
    (getKey answers q.id = Value.vStr "" → canProceed q answers = false)
    ∧ (∀ n : Int, getKey answers q.id = Value.vNum n → canProceed q answers = true) := by
  constructor
  · intro hv
    simp [canProceed, hreq, hv]
    decide
  · intro n hv
    simp [canProceed, hreq, hv]

/-- Witness for `canProceed_number_spec` on the concrete question `numQ`
with stored values `''`, `0` and `-7`. -/
theorem canProceed_number_witness :
    (numQ.required = true ∧ numQ.type = QType.number)
    ∧ canProceed numQ [("q", Value.vStr "")] = false
    ∧ canProceed numQ [("q", Value.vNum 0)] = true
    ∧ canProceed numQ [("q", Value.vNum (-7))] = true :=
  ⟨⟨rfl, rfl⟩,
   (canProceed_number_spec numQ [("q", Value.vStr "")] rfl rfl).1 (by decide),
   (canProceed_number_spec numQ [("q", Value.vNum 0)] rfl rfl).2 0 (by decide),
   (canProceed_number_spec numQ [("q", Value.vNum (-7))] rfl rfl).2 (-7) (by decide)⟩

-- --- C5 ---

/-- C5 (corrected): `handleNext` and `handlePrev` clear `validationError`
before re-evaluation (`handleNext` then sets the fixed message when the
current question fails), but `goToQuestion` leaves `validationError`
unchanged — it does not clear it. -/
theorem navigation_error_spec (questions : List Question) (st : WizardState)
    (i : Nat) :
    (handleNext questions st).error
      = (if canProceed (questions.getD st.index defaultQuestion) st.answers
         then none else some "This question is required.")
    ∧ (handlePrev st).error = none
    ∧ (goToQuestion st i).error = st.error := by
  refine ⟨?_, ?_, rfl⟩
  · unfold handleNext
    split_ifs with h1 h2 h3 <;> simp_all
  · unfold handlePrev
    split <;> rfl

/-- C5 counterexample: `goToQuestion` on a state with a stale
`validationError` leaves the error in place, refuting "every navigation
attempt clears validationError". -/
theorem navigation_error_cex :
    (goToQuestion ⟨[], 0, true, some "stale"⟩ 1).error = some "stale"
    ∧ some "stale" ≠ (none : Option String) :=
  ⟨rfl, by decide⟩

-- --- C8 ---

/-- C8 (confirmed): for an in-range `i`, `goToQuestion` sets the phase to
Answering and the index to `i` regardless of validation state, and it is
idempotent: a second identical call leaves the whole state unchanged. -/
theorem jumpTo_spec (questions : List Question) (st : WizardState) (i : Nat)
    (h : i < questions.length) :
    (goToQuestion st i).showPreview = false
    ∧ (goToQuestion st i).index = i
    ∧ goToQuestion (goToQuestion st i) i = goToQuestion st i :=
  ⟨rfl, rfl, rfl⟩

/-- Witness for `jumpTo_spec` on the demo survey at `i = 0`. -/
theorem jumpTo_spec_witness :
    ((0 : Nat) < demoQuestions.length)
    ∧ ((goToQuestion ⟨[], 3, true, some "e"⟩ 0).showPreview = false
       ∧ (goToQuestion ⟨[], 3, true, some "e"⟩ 0).index = 0
       ∧ goToQuestion (goToQuestion ⟨[], 3, true, some "e"⟩ 0) 0
           = goToQuestion ⟨[], 3, true, some "e"⟩ 0) :=
  ⟨by decide, jumpTo_spec demoQuestions ⟨[], 3, true, some "e"⟩ 0 (by decide)⟩

-- --- C9 ---

/-- C9 (confirmed): `setAnswer` overwrites exactly the given question id in
the answer store and leaves every other entry, the index, the phase and the
validation error unchanged. -/
theorem setAnswer_spec (st : WizardState) (qid : String) (v : Value) :
    (setAnswer st qid v).index = st.index
    ∧ (setAnswer st qid v).showPreview = st.showPreview
    ∧ (setAnswer st qid v).error = st.error
    ∧ ∀ k, getKey (setAnswer st qid v).answers k
        = if k = qid then v else getKey st.answers k :=
  ⟨rfl, rfl, rfl, fun k => getKey_setKey st.answers qid v k⟩

-- --- C10 ---

/-- C10 (confirmed): the preview's answered count equals the number of
answer-store entries whose value is JS-truthy; hence an entry holding the
number 0 or the empty string does not change the count, while an entry
holding an empty list raises it by one. -/
theorem answeredCount_spec :
    (∀ answers : AnswerStore,
        answeredCount answers = answers.countP (fun p => jsTruthy p.2))
    ∧ (∀ (l1 l2 : AnswerStore) (qid : String),
        answeredCount (l1 ++ (qid, Value.vNum 0) :: l2) = answeredCount (l1 ++ l2))
    ∧ (∀ (l1 l2 : AnswerStore) (qid : String),
        answeredCount (l1 ++ (qid, Value.vStr "") :: l2) = answeredCount (l1 ++ l2))
    ∧ (∀ (l1 l2 : AnswerStore) (qid : String),
        answeredCount (l1 ++ (qid, Value.vList []) :: l2)
          = answeredCount (l1 ++ l2) + 1) := by
  refine ⟨?_, ?_, ?_, ?_⟩
  · intro answers
    simp only [answeredCount, ← List.countP_eq_length_filter, List.countP_map]
    rfl
  · intro l1 l2 qid
    simp [answeredCount, jsTruthy]
  · intro l1 l2 qid
    simp [answeredCount, jsTruthy]
  · intro l1 l2 qid
    simp [answeredCount, jsTruthy]
    omega

-- --- C7 ---

/-- Membership in the JS-set materialisation is membership in the list. -/
theorem mem_jsSetOfList (a : String) (l : List String) :
    a ∈ jsSetOfList l ↔ a ∈ l := by
  induction l with
  | nil => simp [jsSetOfList]
  | cons x xs ih =>
    simp only [jsSetOfList, List.mem_cons, List.mem_filter, ih, bne_iff_ne]
    rcases eq_or_ne a x with h | h
    · simp [h]
    · simp [h]

/-- The JS-set materialisation has no duplicates. -/
theorem nodup_jsSetOfList (l : List String) : (jsSetOfList l).Nodup := by
  induction l with
  | nil => simp [jsSetOfList]
  | cons x xs ih =>
    simp only [jsSetOfList, List.nodup_cons]
    refine ⟨?_, ih.filter _⟩
    intro hmem
    rw [List.mem_filter] at hmem
    simp [bne_iff_ne] at hmem

/-- C7 (confirmed): toggling an option that is present removes it, toggling
an absent option appends it (to the de-duplicated list), the result never
contains duplicates, and toggling the same option twice returns the original
contents under set (membership) equality. -/
theorem toggleOption_spec (xs : List String) (opt : String) :
    (opt ∈ xs → opt ∉ toggleOption (Value.vList xs) opt)
    ∧ (opt ∉ xs → toggleOption (Value.vList xs) opt = jsSetOfList xs ++ [opt])
    ∧ (toggleOption (Value.vList xs) opt).Nodup
    ∧ (∀ a, a ∈ toggleOption (Value.vList (toggleOption (Value.vList xs) opt)) opt
        ↔ a ∈ xs) := by
  refine ⟨?_, ?_, ?_, ?_⟩
  · intro hin
    simp [toggleOption, mem_jsSetOfList, hin, List.mem_filter]
  · intro hout
    simp [toggleOption, mem_jsSetOfList, hout]
  · by_cases hin : opt ∈ xs
    · simp only [toggleOption, mem_jsSetOfList, hin, if_true]
      exact (nodup_jsSetOfList xs).filter _
    · simp only [toggleOption, mem_jsSetOfList, hin, if_false]
      refine (nodup_jsSetOfList xs).append (List.nodup_singleton opt) ?_
      intro a ha hb
      rw [List.mem_singleton] at hb
      subst hb
      exact hin ((mem_jsSetOfList a xs).mp ha)
  · intro a
    by_cases hin : opt ∈ xs
    · simp only [toggleOption, mem_jsSetOfList, hin, if_true, List.mem_filter,
        bne_iff_ne]
      rcases eq_or_ne a opt with h | h
      · subst h
        simp [hin]
      · simp [h, mem_jsSetOfList, List.mem_filter, bne_iff_ne]
    · simp only [toggleOption, mem_jsSetOfList, hin, if_false, List.mem_append,
        List.mem_filter, List.mem_singleton, bne_iff_ne]
      rcases eq_or_ne a opt with h | h
      · subst h
        simp [hin, mem_jsSetOfList]
      · simp [h, mem_jsSetOfList, List.mem_append, List.mem_singleton]

/-- Witness for `toggleOption_spec`: removing a present option and appending
an absent one on a concrete list. -/
theorem toggleOption_spec_witness :
    ("Walking" ∈ (["Walking", "Running"] : List String)
      ∧ "Walking" ∉ toggleOption (Value.vList ["Walking", "Running"]) "Walking")
    ∧ ("Gym" ∉ (["Walking", "Running"] : List String)
      ∧ toggleOption (Value.vList ["Walking", "Running"]) "Gym"
          = jsSetOfList ["Walking", "Running"] ++ ["Gym"]) :=
  ⟨⟨by decide, (toggleOption_spec ["Walking", "Running"] "Walking").1 (by decide)⟩,
   ⟨by decide, (toggleOption_spec ["Walking", "Running"] "Gym").2.1 (by decide)⟩⟩

-- --- C2 ---

/-- JS `questions.indexOf(qq)` applied to the question found by the
validation loop equals the index of the first question satisfying the loop
predicate. -/
theorem indexOf_find_eq_findIdx {p : Question → Bool} :
    ∀ (l : List Question) (a : Question),
      l.find? p = some a → l.indexOf a = l.findIdx p := by
  intro l
  induction l with
  | nil =>
    intro a h
    simp at h
  | cons x xs ih =>
    intro a h
    rw [List.findIdx_cons]
    cases hx : p x with
    | true =>
      rw [List.find?_cons_of_pos _ hx] at h
      injection h with h2
      subst h2
      simp [List.indexOf_cons_self, hx]
    | false =>
      have hx2 : ¬ p x = true := by simp [hx]
      rw [List.find?_cons_of_neg _ hx2] at h
      have hne : x ≠ a := by
        intro he
        subst he
        exact hx2 (List.find?_some h)
      rw [List.indexOf_cons_ne _ hne, ih a h]
      rfl

/-- C2 (confirmed): when some required question fails `canProceed`,
`handleSubmit` leaves the preview for the Answering phase, jumps to the first
failing required question, sets the fixed message, does not invoke the
gateway, and leaves the answer store unchanged. -/
theorem submit_validation_spec (questions : List Question)
    (resp : GatewayOutcome) (st : WizardState)
    (h : ∃ qq ∈ questions, qq.required = true ∧ canProceed qq st.answers = false) :
    (handleSubmit questions resp st).2 = false
    ∧ (handleSubmit questions resp st).1.showPreview = false
    ∧ (handleSubmit questions resp st).1.index
        = questions.findIdx (failPred st.answers)
    ∧ (handleSubmit questions resp st).1.error
        = some "Please complete required fields."
    ∧ (handleSubmit questions resp st).1.answers = st.answers := by
  have hsome : (questions.find? (failPred st.answers)).isSome := by
    rw [List.find?_isSome]
    obtain ⟨qq, hmem, hreq, hcp⟩ := h
    exact ⟨qq, hmem, by simp [failPred, hreq, hcp]⟩
  obtain ⟨a, ha⟩ := Option.isSome_iff_exists.mp hsome
  have hidx := indexOf_find_eq_findIdx questions a ha
  have hred : handleSubmit questions resp st
      = ({ st with showPreview := false,
                   index := questions.indexOf a,
                   error := some "Please complete required fields." }, false) := by
    simp only [handleSubmit, ha]
  rw [hred]
  exact ⟨rfl, rfl, hidx, rfl, rfl⟩

/-- Witness for `submit_validation_spec`: the demo survey with its initial
(empty) answers; the first failing required question is `q_name` at index 0. -/
theorem submit_validation_witness :
    (∃ qq ∈ demoQuestions, qq.required = true
        ∧ canProceed qq (initAnswers demoQuestions) = false)
    ∧ demoQuestions.findIdx (failPred (initAnswers demoQuestions)) = 0
    ∧ ((handleSubmit demoQuestions (GatewayOutcome.httpOk "ok")
          ⟨initAnswers demoQuestions, 4, true, none⟩).2 = false
       ∧ (handleSubmit demoQuestions (GatewayOutcome.httpOk "ok")
          ⟨initAnswers demoQuestions, 4, true, none⟩).1.showPreview = false
       ∧ (handleSubmit demoQuestions (GatewayOutcome.httpOk "ok")
          ⟨initAnswers demoQuestions, 4, true, none⟩).1.index
            = demoQuestions.findIdx (failPred (initAnswers demoQuestions))
       ∧ (handleSubmit demoQuestions (GatewayOutcome.httpOk "ok")
          ⟨initAnswers demoQuestions, 4, true, none⟩).1.error
            = some "Please complete required fields."
       ∧ (handleSubmit demoQuestions (GatewayOutcome.httpOk "ok")
          ⟨initAnswers demoQuestions, 4, true, none⟩).1.answers
            = initAnswers demoQuestions) :=
  ⟨by decide, by decide,
   submit_validation_spec demoQuestions (GatewayOutcome.httpOk "ok")
     ⟨initAnswers demoQuestions, 4, true, none⟩ (by decide)⟩

-- --- C3 ---

/-- C3 (confirmed): in the Answering phase with an in-range index,
`handleNext` sets the fixed message and changes nothing else when the current
question fails validation; otherwise it clears the error and either
increments the index (not on the last question) or enters the Reviewing
phase without changing the index (on the last question). -/
theorem next_spec (questions : List Question) (st : WizardState)
    (hph : st.showPreview = false) (hidx : st.index < questions.length) :
    (canProceed (questions.getD st.index defaultQuestion) st.answers = false →
        handleNext questions st
          = { st with error := some "This question is required." })
    ∧ (canProceed (questions.getD st.index defaultQuestion) st.answers = true →
        st.index < questions.length - 1 →
          handleNext questions st
            = { st with error := none, index := st.index + 1 })
    ∧ (canProceed (questions.getD st.index defaultQuestion) st.answers = true →
        st.index = questions.length - 1 →
          handleNext questions st
            = { st with error := none, showPreview := true }) := by
  refine ⟨?_, ?_, ?_⟩
  · intro hc
    simp only [handleNext]
    rw [hc]
    simp
  · intro hc hlt
    simp only [handleNext]
    rw [hc]
    simp [hlt]
  · intro hc heq
    have hnlt : ¬ st.index < questions.length - 1 := by omega
    simp only [handleNext]
    rw [hc]
    simp [hnlt]

/-- Witness for `next_spec`: advancing from index 0 of the demo survey with a
complete answer for `q_name`. -/
theorem next_spec_witness :
    ((⟨filledAnswers, 0, false, none⟩ : WizardState).showPreview = false
      ∧ (0 : Nat) < demoQuestions.length)
    ∧ handleNext demoQuestions ⟨filledAnswers, 0, false, none⟩
        = ⟨filledAnswers, 1, false, none⟩ :=
  ⟨⟨rfl, by decide⟩,
   (next_spec demoQuestions ⟨filledAnswers, 0, false, none⟩ rfl
      (by decide)).2.1 (by decide) (by decide)⟩

-- --- C6 ---

/-- C6 (corrected): when every required question passes and the gateway
reports an HTTP failure, `handleSubmit` invokes the gateway, stays in the
Reviewing phase with index and answers unchanged, and sets
`validationError` to the failure's `error` message verbatim when that
message is nonempty; an empty or absent message is replaced by the fixed
fallback "Submit failed". -/
theorem submit_gateway_failure_spec (questions : List Question)
    (st : WizardState) (e : Option String)
    (hpass : ∀ qq ∈ questions, qq.required = true
        → canProceed qq st.answers = true)
    (hrev : st.showPreview = true) :
    (handleSubmit questions (GatewayOutcome.httpFail e) st).2 = true
    ∧ (handleSubmit questions (GatewayOutcome.httpFail e) st).1.showPreview = true
    ∧ (handleSubmit questions (GatewayOutcome.httpFail e) st).1.index = st.index
    ∧ (handleSubmit questions (GatewayOutcome.httpFail e) st).1.answers = st.answers
    ∧ (handleSubmit questions (GatewayOutcome.httpFail e) st).1.error
        = some (match e with
            | some m => if m = "" then "Submit failed" else m
            | none => "Submit failed") := by
  have hnone : questions.find? (failPred st.answers) = none := by
    rw [List.find?_eq_none]
    intro qq hmem hp
    simp only [failPred, Bool.and_eq_true, Bool.not_eq_true'] at hp
    have := hpass qq hmem hp.1
    rw [this] at hp
    exact absurd hp.2 (by simp)
  have hred : handleSubmit questions (GatewayOutcome.httpFail e) st
      = ({ st with error := some (jsOr (match e with
            | some s => jsOr s "Submit failed"
            | none => "Submit failed") "Submission failed") }, true) := by
    simp only [handleSubmit, hnone]
  rw [hred]
  refine ⟨rfl, hrev, rfl, rfl, ?_⟩
  cases e with
  | none => simp [jsOr]
  | some m =>
    by_cases hm : m = ""
    · subst hm
      simp [jsOr]
    · simp [jsOr, hm]

/-- C6 counterexample: with a valid Reviewing state and a gateway failure
whose `error` field is the empty string, `validationError` becomes the
fallback "Submit failed", not the failure's message verbatim. -/
theorem submit_gateway_failure_cex :
    (handleSubmit demoQuestions (GatewayOutcome.httpFail (some ""))
        ⟨filledAnswers, 4, true, none⟩).1.error = some "Submit failed"
    ∧ some "Submit failed" ≠ some ("" : String) := by
  exact ⟨by decide, by decide⟩

/-- Witness for `submit_gateway_failure_spec`: a nonempty failure message is
surfaced verbatim on the demo survey with complete answers. -/
theorem submit_gateway_failure_witness :
    ((∀ qq ∈ demoQuestions, qq.required = true
        → canProceed qq filledAnswers = true)
      ∧ (⟨filledAnswers, 4, true, none⟩ : WizardState).showPreview = true)
    ∧ (handleSubmit demoQuestions (GatewayOutcome.httpFail (some "boom"))
          ⟨filledAnswers, 4, true, none⟩).1.error = some "boom" :=
  ⟨⟨by decide, rfl⟩,
   ((submit_gateway_failure_spec demoQuestions ⟨filledAnswers, 4, true, none⟩
      (some "boom") (by decide) rfl).2.2.2.2).trans (by decide)⟩
